import Mathlib

/-!
Verification of the milestone verification and disbursement subsystem of the
green-hydrogen subsidy backend.  The definitions below are shallow embeddings
of the JavaScript services and Express routes:

* `backend/src/services/blockchainService.js` — decoding of on-chain records;
* `backend/src/routes/milestones.js` — the verify / dispute / auto-verify /
  create-milestone route handlers;
* `backend/src/middleware/auth.js` — the `authorize` role middleware;
* `backend/src/services/dataIntegrationService.js` — multi-source aggregation;
* the payment gateway service — `processPayment`, `generatePaymentId` and the
  `processWithRetry` backoff loop;
* `backend/src/services/bankingService.js` — the `_makeRequest` retry loop.

The smart contract `SubsidyContract` itself is not part of the source tree;
only its ABI declaration and its callers are.  Operations it decides
(`verifyMilestone`, `addMilestone`) are modelled from the specification and
carry a doc comment saying so.
-/

deriving instance DecidableEq for Except

namespace SubsidyCore

/-- Error taxonomy surfaced by the backend: the custom error classes of
`middleware/errorHandler.js` (`ForbiddenError`, `NotFoundError`,
`ConflictError`, ...) together with the validation layer's 400 responses and
the spec's `InvalidArgument`/`Unavailable` conditions. -/
inductive ApiError
  | unauthorized (msg : String)
  | forbidden (msg : String)
  | notFound (msg : String)
  | conflict (msg : String)
  | invalidArgument (msg : String)
  | badRequest (msg : String)
  | unavailable (msg : String)
  deriving DecidableEq

/-! ### Blockchain decode layer (`blockchainService.js`) -/

/-- The status-name table of `BlockchainService._getMilestoneStatusName`. -/
def milestoneStatusNames : List String := ["Pending", "Verified", "Failed", "Disputed"]

/-- `BlockchainService._getMilestoneStatusName`: `statuses[status] || 'Unknown'`.
An in-range code indexes the table; any other code yields `undefined`, which
the `||` normalizes to the string `Unknown`. -/
def getMilestoneStatusName (status : Nat) : String :=
  milestoneStatusNames.getD status "Unknown"

/-- The raw tuple returned by the contract's `getMilestone` view, before
`BlockchainService.getMilestone` decodes it.  Addresses are modelled as
naturals with `0` standing for `ethers.constants.AddressZero`; timestamps are
unix seconds. -/
structure RawMilestone where
  id : Nat
  projectId : Nat
  description : String
  subsidyAmountWei : Nat
  targetValue : Nat
  actualValue : Nat
  verificationSource : String
  deadline : Nat
  status : Nat
  verifiedAt : Nat
  verifiedBy : Nat
  paid : Bool
  deriving DecidableEq

/-- The JSON object built by `BlockchainService.getMilestone`. -/
structure DecodedMilestone where
  id : Nat
  projectId : Nat
  description : String
  targetValue : Nat
  actualValue : Nat
  verificationSource : String
  deadline : Nat
  status : String
  verifiedAt : Option Nat
  verifiedBy : Option Nat
  paid : Bool
  deriving DecidableEq

/-- Body of `BlockchainService.getMilestone`: status through
`_getMilestoneStatusName`, `verifiedAt` nulled on a zero timestamp
(`verifiedAt.toNumber() > 0 ? new Date(...) : null`) and `verifiedBy` nulled
on the zero address (`verifiedBy !== ethers.constants.AddressZero ? ... : null`). -/
def decodeMilestone (m : RawMilestone) : DecodedMilestone :=
  { id := m.id
    projectId := m.projectId
    description := m.description
    targetValue := m.targetValue
    actualValue := m.actualValue
    verificationSource := m.verificationSource
    deadline := m.deadline
    status := getMilestoneStatusName m.status
    verifiedAt := if m.verifiedAt > 0 then some m.verifiedAt else none
    verifiedBy := if m.verifiedBy ≠ 0 then some m.verifiedBy else none
    paid := m.paid }

/-! ### The milestone ledger and its operations

The milestone state machine is stored behind the `SubsidyContract`; the
backend reads and writes it through `blockchainService`.  The contract body is
not in the source tree, so its two state-changing operations are modelled from
the specification. -/

/-- Milestone status enumeration of the ledger (codes 0–3 of the contract). -/
inductive MilestoneStatus
  | pending
  | verified
  | failed
  | disputed
  deriving DecidableEq

structure Milestone where
  id : Nat
  projectId : Nat
  description : String
  subsidyAmount : ℚ
  targetValue : Nat
  actualValue : Nat
  verificationSource : String
  deadline : Nat
  status : MilestoneStatus
  verifiedAt : Option Nat
  verifiedBy : Option Nat
  paid : Bool
  deriving DecidableEq

structure Project where
  id : Nat
  producer : Nat
  deriving DecidableEq

/-- Authoritative project/milestone store behind the contract. -/
structure Ledger where
  projects : List Project
  milestones : List Milestone
  nextMilestoneId : Nat
  deriving DecidableEq

def Ledger.getMilestone (l : Ledger) (mid : Nat) : Option Milestone :=
  l.milestones.find? (fun m => m.id == mid)

def Ledger.getProject (l : Ledger) (pid : Nat) : Option Project :=
  l.projects.find? (fun p => p.id == pid)

/-- The in-place update a successful verification performs on one milestone. -/
def Milestone.recordVerification (m : Milestone) (actualValue : Nat) (success : Bool)
    (now verifier : Nat) : Milestone :=
  { m with
    status := if success then MilestoneStatus.verified else MilestoneStatus.failed
    actualValue := actualValue
    verifiedAt := some now
    verifiedBy := some verifier }

/-- Modelled from the spec: `SubsidyContract.verifyMilestone` (declared in the
ABI of `blockchainService.js`, body not in the source tree).  Per the spec's
`verify` contract it requires the milestone to exist and to be `Pending`;
calling it on an already-resolved milestone fails with `Conflict` and leaves
the store untouched; on success it records `actualValue`, `verifiedAt` and
`verifiedBy` and moves the status to `Verified` or `Failed`. -/
def Ledger.verifyMilestone (l : Ledger) (mid actualValue : Nat) (success : Bool)
    (now verifier : Nat) : Except ApiError Ledger :=
  match l.getMilestone mid with
  | none => Except.error (ApiError.notFound "Milestone does not exist")
  | some m =>
    if m.status = MilestoneStatus.pending then
      Except.ok { l with
        milestones := l.milestones.map (fun x =>
          if x.id == mid then x.recordVerification actualValue success now verifier else x) }
    else
      Except.error (ApiError.conflict "Milestone already verified")

/-- Modelled from the spec: `SubsidyContract.addMilestone` (declared in the
ABI, body not in the source tree).  Appends a fresh `Pending` milestone with
the next identifier. -/
def Ledger.addMilestone (l : Ledger) (pid : Nat) (description : String)
    (subsidyAmount : ℚ) (targetValue : Nat) (verificationSource : String)
    (deadline : Nat) : Ledger :=
  { l with
    milestones := l.milestones ++ [{
      id := l.nextMilestoneId
      projectId := pid
      description := description
      subsidyAmount := subsidyAmount
      targetValue := targetValue
      actualValue := 0
      verificationSource := verificationSource
      deadline := deadline
      status := MilestoneStatus.pending
      verifiedAt := none
      verifiedBy := none
      paid := false }]
    nextMilestoneId := l.nextMilestoneId + 1 }

/-! ### Route handlers of `routes/milestones.js` -/

/-- Handler of `POST /api/milestones/:id/verify`: fetch the milestone
(`NotFound` if absent), then delegate to the ledger's `verifyMilestone`.
The handler itself performs no status check; the check-and-set lives in the
ledger operation. -/
def verifyMilestoneRoute (l : Ledger) (mid actualValue : Nat) (success : Bool)
    (now verifier : Nat) : Except ApiError Unit × Ledger :=
  match l.getMilestone mid with
  | none => (Except.error (ApiError.notFound "Milestone not found"), l)
  | some _ =>
    match l.verifyMilestone mid actualValue success now verifier with
    | Except.error e => (Except.error e, l)
    | Except.ok l' => (Except.ok (), l')

/-- Result of the oracle contract's `getAggregateValue` view. -/
structure AggregateData where
  totalValue : Nat
  dataPointCount : Nat
  deriving DecidableEq

/-- Handler of `POST /api/milestones/:id/auto-verify`.  The express-validator
chain only checks that `fromDate`/`toDate` parse as ISO-8601 dates; the handler
checks existence and `Pending` status, fetches the aggregate for the window,
derives `success = totalValue >= targetValue` and calls `verifyMilestone`.
No comparison of `fromDate` against `toDate` or against the current time
appears anywhere on the path. -/
def autoVerifyRoute (l : Ledger) (agg : String → Nat → Nat → AggregateData)
    (mid fromDate toDate now verifier : Nat) : Except ApiError Unit × Ledger :=
  match l.getMilestone mid with
  | none => (Except.error (ApiError.notFound "Milestone not found"), l)
  | some m =>
    if m.status ≠ MilestoneStatus.pending then
      (Except.error (ApiError.badRequest "Milestone is not in pending status"), l)
    else
      let a := agg m.verificationSource fromDate toDate
      let success := decide (m.targetValue ≤ a.totalValue)
      match l.verifyMilestone mid a.totalValue success now verifier with
      | Except.error e => (Except.error e, l)
      | Except.ok l' => (Except.ok (), l')

/-! ### Role authority (`middleware/auth.js`) and the guarded routes -/

/-- The four mutually exclusive roles of `USER_ROLES`. -/
inductive Role
  | government
  | producer
  | auditor
  | oracle
  deriving DecidableEq

/-- The JWT payload fields the milestone routes consult. -/
structure User where
  id : Nat
  role : Role
  walletAddress : Nat
  deriving DecidableEq

/-- The `authorize(...roles)` middleware: 401 without an authenticated user,
403 `Insufficient permissions` when the user's role is not in the allow list,
otherwise pass the user through to the handler. -/
def authorize (roles : List Role) (user : Option User) : Except ApiError User :=
  match user with
  | none => Except.error (ApiError.unauthorized "Authentication required")
  | some u =>
    if roles.contains u.role then Except.ok u
    else Except.error (ApiError.forbidden "Insufficient permissions")

/-- Request body of `POST /api/milestones`. -/
structure CreateMilestoneInput where
  projectId : Nat
  description : String
  subsidyAmount : ℚ
  targetValue : Nat
  verificationSource : String
  deadline : Nat
  deriving DecidableEq

/-- The express-validator chain of `POST /api/milestones`: positive project
id, description 10–1000 characters, amount at least 0.01, positive integer
target, verification source 1–100 characters, deadline strictly in the
future.  (The validator trims surrounding whitespace before measuring; the
embedding measures the string directly.) -/
def validCreateMilestoneInput (now : Nat) (inp : CreateMilestoneInput) : Bool :=
  decide (1 ≤ inp.projectId) &&
  decide (10 ≤ inp.description.length) && decide (inp.description.length ≤ 1000) &&
  decide ((1 : ℚ)/100 ≤ inp.subsidyAmount) &&
  decide (1 ≤ inp.targetValue) &&
  decide (1 ≤ inp.verificationSource.length) && decide (inp.verificationSource.length ≤ 100) &&
  decide (now < inp.deadline)

/-- `POST /api/milestones` (create milestone): `authorize(GOVERNMENT)` runs
first, then validation, then the handler fetches the project and calls the
ledger's `addMilestone`.  Returns the new milestone id and the next ledger
state; every failure leaves the ledger as it was. -/
def createMilestoneRoute (user : Option User) (now : Nat) (l : Ledger)
    (inp : CreateMilestoneInput) : Except ApiError Nat × Ledger :=
  match authorize [Role.government] user with
  | Except.error e => (Except.error e, l)
  | Except.ok _ =>
    if validCreateMilestoneInput now inp then
      match l.getProject inp.projectId with
      | none => (Except.error (ApiError.notFound "Project not found"), l)
      | some _ =>
        (Except.ok l.nextMilestoneId,
         l.addMilestone inp.projectId inp.description inp.subsidyAmount
           inp.targetValue inp.verificationSource inp.deadline)
    else (Except.error (ApiError.invalidArgument "Validation failed"), l)

/-- The audit entry `logger.audit('MILESTONE_DISPUTED', ...)` records — the
only state the dispute handler mutates. -/
structure DisputeRecord where
  milestoneId : Nat
  reason : String
  submittedBy : Nat
  originalStatus : MilestoneStatus
  deriving DecidableEq

/-- The express-validator chain of `POST /api/milestones/:id/dispute`:
positive milestone id and a reason of 10–500 characters.  (The validator
trims surrounding whitespace before measuring; the embedding measures the
string directly.) -/
def validDisputeRequest (mid : Nat) (reason : String) : Bool :=
  decide (1 ≤ mid) &&
  decide (10 ≤ reason.length) && decide (reason.length ≤ 500)

/-- `POST /api/milestones/:id/dispute`: `authorize(PRODUCER, GOVERNMENT)`,
then validation, then the handler loads the milestone and its project, rejects
a producer who does not own the project with `Forbidden`, rejects milestones
that are neither `Verified` nor `Failed` with a 400, and otherwise appends the
dispute audit record. -/
def disputeRoute (user : Option User) (l : Ledger) (log : List DisputeRecord)
    (mid : Nat) (reason : String) : Except ApiError Unit × List DisputeRecord :=
  match authorize [Role.producer, Role.government] user with
  | Except.error e => (Except.error e, log)
  | Except.ok u =>
    if validDisputeRequest mid reason then
      match l.getMilestone mid with
      | none => (Except.error (ApiError.notFound "Milestone not found"), log)
      | some m =>
        match l.getProject m.projectId with
        | none => (Except.error (ApiError.notFound "Project not found"), log)
        | some p =>
          if u.role = Role.producer ∧ p.producer ≠ u.walletAddress then
            (Except.error (ApiError.forbidden "You can only dispute milestones for your own projects"), log)
          else if m.status ≠ MilestoneStatus.verified ∧ m.status ≠ MilestoneStatus.failed then
            (Except.error (ApiError.badRequest "Only verified or failed milestones can be disputed"), log)
          else
            (Except.ok (),
             log ++ [{ milestoneId := mid, reason := reason, submittedBy := u.id,
                       originalStatus := m.status }])
    else (Except.error (ApiError.invalidArgument "Validation failed"), log)

/-! ### Data aggregation (`dataIntegrationService.js`) -/

/-- Outcome of fetching one underlying source inside
`getAggregatedProductionData`.  Each fetch is wrapped in its own `catch`, so a
failure becomes an `{ error, sourceId }` value rather than a rejection.  A
successful IoT fetch reports `summary.totalProduction`; a successful
government fetch reports `summary.totalRenewableEnergy` (its summary has no
`totalProduction` field); a third-party fetch returns verification results
with no `summary` at all. -/
inductive SourceOutcome
  | iotData (totalProduction : Nat) (averageQuality : Nat) (dataPoints : Nat)
  | govData (totalRenewableEnergy : Nat)
  | thirdPartyData (productionVerified : Bool)
  | fetchError (msg : String)
  deriving DecidableEq

def SourceOutcome.isError : SourceOutcome → Bool
  | SourceOutcome.fetchError _ => true
  | _ => false

/-- The `result.summary && result.summary.totalProduction` access: only IoT
results carry the field, and JavaScript truthiness treats a present `0` the
same as an absent field. -/
def SourceOutcome.summaryTotalProduction : SourceOutcome → Option Nat
  | SourceOutcome.iotData v _ _ => some v
  | _ => none

/-- The `aggregated` object `getAggregatedProductionData` returns
(`averageQuality` is omitted here; no claim concerns it). -/
structure AggregatedResult where
  totalProduction : Nat
  sourcesUsed : Nat
  dataReliability : ℚ
  deriving DecidableEq

/-- One step of the `reduce` computing `totalProduction`:
`result.summary && result.summary.totalProduction ? sum + ... : sum`, with
JavaScript truthiness treating a present `0` like an absent field. -/
def totalProductionStep (sum : Nat) (r : SourceOutcome) : Nat :=
  match r.summaryTotalProduction with
  | some v => if v ≠ 0 then sum + v else sum
  | none => sum

/-- `DataIntegrationService.getAggregatedProductionData`, applied to the
per-source fetch outcomes.  Every per-source failure was already caught and
turned into an error value, so each promise fulfills and the aggregation
itself always returns (`Except.ok`); the surrounding `try` never observes a
throw for a list of outcomes.  `validResults` keeps the fulfilled,
non-error outcomes; `totalProduction` adds `summary.totalProduction` when the
field is present and truthy; `dataReliability` is
`validResults.length / sources.length * 100`. -/
def getAggregatedProductionData (outcomes : List SourceOutcome) :
    Except ApiError AggregatedResult :=
  let validResults := outcomes.filter (fun o => !o.isError)
  let totalProduction := validResults.foldl totalProductionStep 0
  Except.ok {
    totalProduction := totalProduction
    sourcesUsed := validResults.length
    dataReliability := ((validResults.length : ℚ) / (outcomes.length : ℚ)) * 100 }

/-! ### Payment gateway service (`paymentGatewayService.js`) -/

/-- `this.retryConfig` of the payment gateway service. -/
structure RetryConfig where
  maxAttempts : Nat
  baseDelay : Nat
  maxDelay : Nat
  deriving DecidableEq

/-- `{ maxAttempts: 3, baseDelay: 1000, maxDelay: 30000 }`. -/
def retryConfig : RetryConfig := { maxAttempts := 3, baseDelay := 1000, maxDelay := 30000 }

/-- What one successful gateway `transfer` call returns to `processPayment`. -/
structure GatewayResponse where
  gatewayReference : String
  fees : ℚ
  deriving DecidableEq

/-- Observable trace of `processWithRetry`: the final result, the backoff
delays slept between attempts (milliseconds), and how many times the
operation (one gateway transfer attempt) was invoked. -/
structure RetryTrace (α : Type) where
  result : Except String α
  delays : List Nat
  attemptsMade : Nat
  deriving DecidableEq

/-- Recursion core of `PaymentGatewayService.processWithRetry`.  The source
recursion increments `attempt` and stops once `attempt >= maxAttempts`; it is
realized structurally on the remaining budget `maxAttempts - attempt`
(`fuel = 0` exactly when `attempt >= maxAttempts`).  A successful operation
returns at once; a failure with budget left sleeps
`min(baseDelay * 2^(attempt-1), maxDelay)` and retries; a failure with no
budget left rethrows the last error. -/
def processWithRetryGo (cfg : RetryConfig) (op : Nat → Except String α) :
    Nat → Nat → RetryTrace α
  | 0, attempt =>
    match op attempt with
    | Except.ok v => { result := Except.ok v, delays := [], attemptsMade := 1 }
    | Except.error e => { result := Except.error e, delays := [], attemptsMade := 1 }
  | fuel + 1, attempt =>
    match op attempt with
    | Except.ok v => { result := Except.ok v, delays := [], attemptsMade := 1 }
    | Except.error e =>
      let delay := min (cfg.baseDelay * 2 ^ (attempt - 1)) cfg.maxDelay
      let t := processWithRetryGo cfg op fuel (attempt + 1)
      { result := t.result, delays := delay :: t.delays, attemptsMade := t.attemptsMade + 1 }

/-- `PaymentGatewayService.processWithRetry(operation, paymentId, attempt)`. -/
def processWithRetry (cfg : RetryConfig) (op : Nat → Except String α) (attempt : Nat) :
    RetryTrace α :=
  processWithRetryGo cfg op (cfg.maxAttempts - attempt) attempt

/-- `PaymentGatewayService.generatePaymentId` builds the string
`PAY_<projectId>_<milestoneId>_<Date.now()>_<random base36 nonce>`.  The id is
modelled by its four dynamic components; two ids render to the same string
exactly when the components agree, since the numeric parts are digit-only and
the base-36 nonce contains no `_` separator. -/
structure PaymentId where
  projectId : Nat
  milestoneId : Nat
  issuedAt : Nat
  nonce : String
  deriving DecidableEq

def generatePaymentId (milestoneId projectId : Nat) (now : Nat) (nonce : String) : PaymentId :=
  { projectId := projectId, milestoneId := milestoneId, issuedAt := now, nonce := nonce }

/-- Keys of `this.gateways` — the methods `processPayment` accepts. -/
def supportedMethods : List String := ["stripe", "paypal", "ach", "wire", "crypto"]

/-- Argument object of `processPayment`. -/
structure PaymentData where
  amount : ℚ
  currency : String
  method : String
  beneficiaryAccount : String
  reference : String
  milestoneId : Nat
  projectId : Nat
  retryOnFailure : Bool
  deriving DecidableEq

/-- One value of `this.paymentStatuses`. -/
structure PaymentStatusEntry where
  status : String
  method : String
  amount : ℚ
  gatewayReference : Option String
  deriving DecidableEq

/-- `Map.set` on the payment-status map: replace the entry when the key is
present, append it otherwise. -/
def setStatus (m : List (PaymentId × PaymentStatusEntry)) (k : PaymentId)
    (v : PaymentStatusEntry) : List (PaymentId × PaymentStatusEntry) :=
  if m.any (fun kv => kv.1 == k) then
    m.map (fun kv => if kv.1 == k then (k, v) else kv)
  else m ++ [(k, v)]

/-- Mutable state of the payment gateway service: `this.paymentStatuses` and
the ids with a deferred retry scheduled by `scheduleRetry`. -/
structure PayState where
  statuses : List (PaymentId × PaymentStatusEntry)
  scheduled : List PaymentId
  deriving DecidableEq

/-- What `processPayment` resolves with on success. -/
structure PaymentResult where
  paymentId : PaymentId
  status : String
  gatewayReference : String
  fees : ℚ
  deriving DecidableEq

/-- Full outcome of one `processPayment` call: the resolved value or rethrown
error, the service state afterwards, and how many gateway transfer attempts
the call issued. -/
structure PaymentOutcome where
  result : Except String PaymentResult
  state : PayState
  transfersAttempted : Nat
  deriving DecidableEq

/-- `PaymentGatewayService.processPayment`.  A fresh payment id is generated
from `(milestoneId, projectId, Date.now(), Math.random())` on every call —
the method never consults `paymentStatuses` for an existing completed record.
A supported method goes through `processWithRetry` (each operation invocation
is one gateway transfer attempt); success stores a `completed` entry and
resolves, failure stores a `failed` entry, schedules a deferred retry when
`retryOnFailure` is set, and rethrows.  An unsupported method throws before
any gateway call and takes the same failure path.  `gatewayExec n` is the
outcome the gateway produces for the n-th attempt of this call. -/
def processPayment (st : PayState) (p : PaymentData) (now : Nat) (nonce : String)
    (gatewayExec : Nat → Except String GatewayResponse) : PaymentOutcome :=
  let paymentId := generatePaymentId p.milestoneId p.projectId now nonce
  let failedEntry : PaymentStatusEntry :=
    { status := "failed", method := p.method, amount := p.amount, gatewayReference := none }
  let failedState : PayState :=
    { statuses := setStatus st.statuses paymentId failedEntry
      scheduled := if p.retryOnFailure then st.scheduled ++ [paymentId] else st.scheduled }
  if supportedMethods.contains p.method then
    let t := processWithRetry retryConfig gatewayExec 1
    match t.result with
    | Except.ok r =>
      let completedEntry : PaymentStatusEntry :=
        { status := "completed", method := p.method, amount := p.amount,
          gatewayReference := some r.gatewayReference }
      { result := Except.ok { paymentId := paymentId, status := "completed",
                              gatewayReference := r.gatewayReference, fees := r.fees }
        state := { st with statuses := setStatus st.statuses paymentId completedEntry }
        transfersAttempted := t.attemptsMade }
    | Except.error e =>
      { result := Except.error e
        state := failedState
        transfersAttempted := t.attemptsMade }
  else
    { result := Except.error ("Unsupported payment method: " ++ p.method)
      state := failedState
      transfersAttempted := 0 }

/-! ### Banking request loop (`bankingService.js`) -/

/-- Outcome of one axios attempt inside `BankingService._makeRequest`: a
response, an HTTP error response with a status code, or a network error with
no response. -/
inductive HttpOutcome
  | success (body : String)
  | httpError (status : Nat)
  | networkError (msg : String)
  deriving DecidableEq

/-- Observable trace of `_makeRequest`: the returned response or the thrown
`lastError`, the attempts issued, and the backoff delays (milliseconds) slept
between attempts. -/
structure BankRequestTrace where
  result : Except HttpOutcome String
  attemptsMade : Nat
  delays : List Nat
  deriving DecidableEq

/-- `this.retryAttempts` of `BankingService`. -/
def bankRetryAttempts : Nat := 3

/-- Loop body of `BankingService._makeRequest`, starting at `attempt` with
`fuel` further iterations allowed (`fuel = retryAttempts - attempt`).  A
response returns immediately; an HTTP error with status in `[400, 500)`
breaks out of the loop at once and that error is thrown; any other error is
retried after `2^attempt * 1000` milliseconds while attempts remain, and the
last error is thrown when they run out.  (On the final attempt, breaking on a
client error and falling out of the loop throw the same last error, so the
budget-exhausted case needs no status distinction.) -/
def makeRequestGo (resp : Nat → HttpOutcome) : Nat → Nat → BankRequestTrace
  | 0, attempt =>
    match resp attempt with
    | HttpOutcome.success b => { result := Except.ok b, attemptsMade := 1, delays := [] }
    | HttpOutcome.httpError s =>
      { result := Except.error (HttpOutcome.httpError s), attemptsMade := 1, delays := [] }
    | HttpOutcome.networkError m =>
      { result := Except.error (HttpOutcome.networkError m), attemptsMade := 1, delays := [] }
  | fuel + 1, attempt =>
    match resp attempt with
    | HttpOutcome.success b => { result := Except.ok b, attemptsMade := 1, delays := [] }
    | HttpOutcome.httpError s =>
      if 400 ≤ s ∧ s < 500 then
        { result := Except.error (HttpOutcome.httpError s), attemptsMade := 1, delays := [] }
      else
        let t := makeRequestGo resp fuel (attempt + 1)
        { result := t.result, attemptsMade := t.attemptsMade + 1,
          delays := (2 ^ attempt * 1000) :: t.delays }
    | HttpOutcome.networkError m =>
      let t := makeRequestGo resp fuel (attempt + 1)
      { result := t.result, attemptsMade := t.attemptsMade + 1,
        delays := (2 ^ attempt * 1000) :: t.delays }

/-- `BankingService._makeRequest`: the `for (attempt = 1; attempt <=
this.retryAttempts; attempt++)` loop, `resp n` being the outcome of the n-th
axios attempt. -/
def bankMakeRequest (resp : Nat → HttpOutcome) : BankRequestTrace :=
  makeRequestGo resp (bankRetryAttempts - 1) 1

/-! ### Sum of the IoT-reported totals (used to characterize the aggregation) -/

/-- The production total a source outcome contributes through the
`summary.totalProduction` access: the IoT total, and `0` for every other
shape of result. -/
def iotReportedTotal : SourceOutcome → Nat
  | SourceOutcome.iotData v _ _ => v
  | _ => 0

/-! ### Concrete fixtures used by witnesses and counterexamples -/

def projEx : Project := { id := 1, producer := 77 }

def projOtherEx : Project := { id := 1, producer := 88 }

def mVerifiedEx : Milestone :=
  { id := 1, projectId := 1, description := "Produce 500kg of green hydrogen",
    subsidyAmount := 1, targetValue := 500, actualValue := 600,
    verificationSource := "meter-1", deadline := 2000,
    status := MilestoneStatus.verified, verifiedAt := some 10, verifiedBy := some 5,
    paid := false }

def mPendingEx : Milestone :=
  { id := 1, projectId := 1, description := "Produce 500kg of green hydrogen",
    subsidyAmount := 1, targetValue := 500, actualValue := 0,
    verificationSource := "meter-1", deadline := 2000,
    status := MilestoneStatus.pending, verifiedAt := none, verifiedBy := none,
    paid := false }

def ledgerVerifiedEx : Ledger :=
  { projects := [projEx], milestones := [mVerifiedEx], nextMilestoneId := 2 }

def ledgerPendingEx : Ledger :=
  { projects := [projEx], milestones := [mPendingEx], nextMilestoneId := 2 }

/-- Ledger whose only project belongs to producer wallet 88, while
`producerEx` below holds wallet 77. -/
def ledgerOtherOwnerEx : Ledger :=
  { projects := [projOtherEx], milestones := [mVerifiedEx], nextMilestoneId := 2 }

def aggConst600 : String → Nat → Nat → AggregateData :=
  fun _ _ _ => { totalValue := 600, dataPointCount := 5 }

def aggConst500 : String → Nat → Nat → AggregateData :=
  fun _ _ _ => { totalValue := 500, dataPointCount := 5 }

def producerEx : User := { id := 10, role := Role.producer, walletAddress := 77 }

def createInputEx : CreateMilestoneInput :=
  { projectId := 1, description := "Produce 500kg of green hydrogen",
    subsidyAmount := 1, targetValue := 500, verificationSource := "meter-1",
    deadline := 999999 }

def reasonEx : String := "Measured production was undercounted"

def gatewayOk : Nat → Except String GatewayResponse :=
  fun _ => Except.ok { gatewayReference := "REF-1", fees := 25 }

def gatewayDown : Nat → Except String GatewayResponse :=
  fun _ => Except.error "gateway unavailable"

def downMsg : Nat → String := fun _ => "gateway unavailable"

def paymentDataEx : PaymentData :=
  { amount := 100, currency := "USD", method := "ach", beneficiaryAccount := "ACC-9",
    reference := "GH-7", milestoneId := 7, projectId := 3, retryOnFailure := true }

def emptyPayState : PayState := { statuses := [], scheduled := [] }

/-- Service state after a first, successful `processPayment` call for
`paymentDataEx` at time 1000. -/
def payStateAfterFirst : PayState :=
  (processPayment emptyPayState paymentDataEx 1000 "aaa" gatewayOk).state

def payResFirst : PaymentResult :=
  { paymentId := generatePaymentId 7 3 1000 "aaa", status := "completed",
    gatewayReference := "REF-1", fees := 25 }

def payResSecond : PaymentResult :=
  { paymentId := generatePaymentId 7 3 1001 "bbb", status := "completed",
    gatewayReference := "REF-1", fees := 25 }

def outcomesZeroSuccess : List SourceOutcome := [SourceOutcome.fetchError "timeout"]

def outcomesPartial : List SourceOutcome :=
  [SourceOutcome.iotData 5 80 2, SourceOutcome.fetchError "connection refused"]

def outcomesMixed : List SourceOutcome :=
  [SourceOutcome.iotData 7 90 3, SourceOutcome.govData 5]

def respClientError : Nat → HttpOutcome := fun _ => HttpOutcome.httpError 404

/-! ## Helper lemmas -/

/-- Updating exactly the entries with a matching id commutes with the
first-match lookup, provided the update preserves ids. -/
theorem find?_update_list (ms : List Milestone) (mid : Nat) (m : Milestone)
    (f : Milestone → Milestone) (hf : ∀ x, (f x).id = x.id)
    (hm : ms.find? (fun x => x.id == mid) = some m) :
    (ms.map fun x => if x.id == mid then f x else x).find? (fun x => x.id == mid)
      = some (f m) := by
  induction ms with
  | nil => simp at hm
  | cons a t ih =>
    rcases Bool.eq_false_or_eq_true (a.id == mid) with hb | hb
    · simp only [List.find?_cons, hb] at hm
      have ham : a = m := Option.some.inj hm
      subst ham
      have hfb : ((f a).id == mid) = true := by rw [hf]; exact hb
      simp only [List.map_cons]
      rw [if_pos hb]
      simp only [List.find?_cons, hfb]
    · simp only [List.find?_cons, hb] at hm
      simp only [List.map_cons]
      rw [if_neg (by simp [hb])]
      simp only [List.find?_cons, hb]
      exact ih hm

/-- Full characterization of the auto-verify handler on an existing `Pending`
milestone: it never rejects, whatever the window, and writes the aggregated
total through the ledger's verify operation. -/
theorem autoVerifyRoute_pending_spec (l : Ledger) (agg : String → Nat → Nat → AggregateData)
    (mid fromDate toDate now verifier : Nat) (m : Milestone)
    (hm : l.getMilestone mid = some m) (hpend : m.status = MilestoneStatus.pending) :
    autoVerifyRoute l agg mid fromDate toDate now verifier
      = (Except.ok (),
         { l with milestones := l.milestones.map (fun x =>
             if x.id == mid then
               x.recordVerification (agg m.verificationSource fromDate toDate).totalValue
                 (decide (m.targetValue ≤ (agg m.verificationSource fromDate toDate).totalValue))
                 now verifier
             else x) }) := by
  unfold autoVerifyRoute Ledger.verifyMilestone
  rw [hm]
  simp [hpend]

/-! ## Claim theorems -/

/-- C10.  Milestone decoding from the ledger is total and normalizes sentinel
values: `_getMilestoneStatusName` maps codes 0–3 to
Pending/Verified/Failed/Disputed and every other code to `Unknown`, and
`getMilestone` nulls `verifiedAt` exactly on a zero raw timestamp and
`verifiedBy` exactly on the zero address. -/
theorem milestone_decode_total_and_normalized (m : RawMilestone) :
    getMilestoneStatusName m.status =
      (if m.status = 0 then "Pending" else if m.status = 1 then "Verified"
       else if m.status = 2 then "Failed" else if m.status = 3 then "Disputed"
       else "Unknown")
    ∧ (decodeMilestone m).status = getMilestoneStatusName m.status
    ∧ ((decodeMilestone m).verifiedAt = none ↔ m.verifiedAt = 0)
    ∧ ((decodeMilestone m).verifiedBy = none ↔ m.verifiedBy = 0) := by
  refine ⟨?_, rfl, ?_, ?_⟩
  · rcases m.status with _ | _ | _ | _ | n <;>
      simp [getMilestoneStatusName, milestoneStatusNames, List.getD]
  · by_cases h : m.verifiedAt > 0 <;> simp [decodeMilestone, h] <;> omega
  · by_cases h : m.verifiedBy = 0 <;> simp [decodeMilestone, h]

/-- C2.  Verifying an already-resolved milestone (status not `Pending`) fails
with `Conflict` and leaves the ledger — hence the milestone's status,
`actualValue`, `verifiedAt` and `verifiedBy` — unchanged; it is not a silent
no-op. -/
theorem verify_rejects_resolved_milestone (l : Ledger) (mid actualValue : Nat)
    (success : Bool) (now verifier : Nat) (m : Milestone)
    (hm : l.getMilestone mid = some m) (hs : m.status ≠ MilestoneStatus.pending) :
    verifyMilestoneRoute l mid actualValue success now verifier
      = (Except.error (ApiError.conflict "Milestone already verified"), l) := by
  unfold verifyMilestoneRoute Ledger.verifyMilestone
  rw [hm]
  simp [hs]

/-- Witness for C2: a concrete ledger whose milestone 1 is already Verified. -/
theorem verify_rejects_resolved_milestone_witness :
    verifyMilestoneRoute ledgerVerifiedEx 1 777 true 99 8
      = (Except.error (ApiError.conflict "Milestone already verified"), ledgerVerifiedEx) :=
  verify_rejects_resolved_milestone ledgerVerifiedEx 1 777 true 99 8 mVerifiedEx
    (by rfl) (by decide)

/-- C3.  `autoVerify` decides success with the non-strict comparison
`aggregatedValue >= targetValue`: a Pending milestone whose aggregated total
reaches the target (equality included) transitions to Verified with
`actualValue` set to the aggregated total, and to Failed when the total is
strictly below the target. -/
theorem auto_verify_inclusive_threshold (l : Ledger) (agg : String → Nat → Nat → AggregateData)
    (mid fromDate toDate now verifier : Nat) (m : Milestone)
    (hm : l.getMilestone mid = some m) (hpend : m.status = MilestoneStatus.pending) :
    (autoVerifyRoute l agg mid fromDate toDate now verifier).1 = Except.ok ()
    ∧ ∃ m', (autoVerifyRoute l agg mid fromDate toDate now verifier).2.getMilestone mid = some m'
        ∧ m'.actualValue = (agg m.verificationSource fromDate toDate).totalValue
        ∧ m'.status = (if m.targetValue ≤ (agg m.verificationSource fromDate toDate).totalValue
                       then MilestoneStatus.verified else MilestoneStatus.failed) := by
  have hspec := autoVerifyRoute_pending_spec l agg mid fromDate toDate now verifier m hm hpend
  rw [hspec]
  refine ⟨rfl, ?_⟩
  refine ⟨m.recordVerification (agg m.verificationSource fromDate toDate).totalValue
    (decide (m.targetValue ≤ (agg m.verificationSource fromDate toDate).totalValue)) now verifier,
    ?_, ?_, ?_⟩
  · exact find?_update_list l.milestones mid m _ (fun x => rfl) hm
  · rfl
  · by_cases hle : m.targetValue ≤ (agg m.verificationSource fromDate toDate).totalValue <;>
      simp [Milestone.recordVerification, hle]

/-- Witness for C3 at the spec's boundary example: target 500 and aggregated
total exactly 500 verifies the milestone with `actualValue = 500`. -/
theorem auto_verify_inclusive_threshold_witness :
    (autoVerifyRoute ledgerPendingEx aggConst500 1 0 100 150 9).1 = Except.ok ()
    ∧ ∃ m', (autoVerifyRoute ledgerPendingEx aggConst500 1 0 100 150 9).2.getMilestone 1 = some m'
        ∧ m'.actualValue = (aggConst500 mPendingEx.verificationSource 0 100).totalValue
        ∧ m'.status = (if mPendingEx.targetValue ≤ (aggConst500 mPendingEx.verificationSource 0 100).totalValue
                       then MilestoneStatus.verified else MilestoneStatus.failed) :=
  auto_verify_inclusive_threshold ledgerPendingEx aggConst500 1 0 100 150 9 mPendingEx
    (by rfl) (by decide)

/-- C5 (amended).  The auto-verify route performs no time-window validation:
even when `fromDate >= toDate` or either bound lies after the current time,
the call does not fail with `InvalidArgument` — for an existing Pending
milestone it proceeds to aggregation and verification and succeeds. -/
theorem auto_verify_ignores_window (l : Ledger) (agg : String → Nat → Nat → AggregateData)
    (mid fromDate toDate now verifier : Nat) (m : Milestone)
    (hm : l.getMilestone mid = some m) (hpend : m.status = MilestoneStatus.pending)
    (hbad : toDate ≤ fromDate ∨ now < fromDate ∨ now < toDate) :
    (autoVerifyRoute l agg mid fromDate toDate now verifier).1 = Except.ok () := by
  rw [autoVerifyRoute_pending_spec l agg mid fromDate toDate now verifier m hm hpend]

/-- Counterexample for C5 as stated: with `fromDate = 100 > toDate = 50`,
both after the current time `now = 10`, the call is not rejected with
`InvalidArgument`; it succeeds and the milestone becomes Verified. -/
theorem auto_verify_accepts_inverted_window :
    (autoVerifyRoute ledgerPendingEx aggConst600 1 100 50 10 9).1 = Except.ok ()
    ∧ ((autoVerifyRoute ledgerPendingEx aggConst600 1 100 50 10 9).2.getMilestone 1).map
        Milestone.status = some MilestoneStatus.verified := by
  constructor <;> rfl

/-- Witness for the amended C5. -/
theorem auto_verify_ignores_window_witness :
    (autoVerifyRoute ledgerPendingEx aggConst600 1 100 50 10 9).1 = Except.ok () :=
  auto_verify_ignores_window ledgerPendingEx aggConst600 1 100 50 10 9 mPendingEx
    (by rfl) (by decide) (Or.inl (by decide))

/-- C8.  Role checks run before any mutation and produce `Forbidden` with no
side effects: a Producer calling `createMilestone` is rejected by
`authorize(GOVERNMENT)` with `Forbidden` and the ledger is unchanged; a
Producer's dispute succeeds only when the disputed milestone's parent project
lists that Producer's wallet as its producer, and otherwise fails with
`Forbidden` while the dispute log stays unchanged. -/
theorem role_checks_fail_fast (u : User) (now : Nat) (l : Ledger)
    (inp : CreateMilestoneInput) (log : List DisputeRecord) (mid : Nat) (reason : String)
    (m : Milestone) (p : Project)
    (hrole : u.role = Role.producer)
    (hm : l.getMilestone mid = some m) (hproj : l.getProject m.projectId = some p)
    (hv : validDisputeRequest mid reason = true) :
    createMilestoneRoute (some u) now l inp
      = (Except.error (ApiError.forbidden "Insufficient permissions"), l)
    ∧ ((disputeRoute (some u) l log mid reason).1 = Except.ok () →
        p.producer = u.walletAddress)
    ∧ (p.producer ≠ u.walletAddress →
        disputeRoute (some u) l log mid reason
          = (Except.error (ApiError.forbidden "You can only dispute milestones for your own projects"),
             log)) := by
  have hagov : authorize [Role.government] (some u)
      = Except.error (ApiError.forbidden "Insufficient permissions") := by
    simp only [authorize]
    rw [hrole]
    rfl
  have haprod : authorize [Role.producer, Role.government] (some u) = Except.ok u := by
    simp only [authorize]
    rw [hrole]
    rfl
  refine ⟨?_, ?_, ?_⟩
  · simp only [createMilestoneRoute, hagov]
  · intro hok
    by_cases hpw : p.producer = u.walletAddress
    · exact hpw
    · exfalso
      simp only [disputeRoute, haprod, hv, if_true, hm, hproj] at hok
      rw [if_pos ⟨hrole, hpw⟩] at hok
      simp at hok
  · intro hpw
    simp only [disputeRoute, haprod, hv, if_true, hm, hproj]
    rw [if_pos ⟨hrole, hpw⟩]

/-- Witness for C8: `producerEx` (wallet 77) against a ledger whose only
project belongs to wallet 88. -/
theorem role_checks_fail_fast_witness :
    createMilestoneRoute (some producerEx) 0 ledgerOtherOwnerEx createInputEx
      = (Except.error (ApiError.forbidden "Insufficient permissions"), ledgerOtherOwnerEx)
    ∧ ((disputeRoute (some producerEx) ledgerOtherOwnerEx [] 1 reasonEx).1 = Except.ok () →
        projOtherEx.producer = producerEx.walletAddress)
    ∧ (projOtherEx.producer ≠ producerEx.walletAddress →
        disputeRoute (some producerEx) ledgerOtherOwnerEx [] 1 reasonEx
          = (Except.error (ApiError.forbidden "You can only dispute milestones for your own projects"),
             [])) :=
  role_checks_fail_fast producerEx 0 ledgerOtherOwnerEx createInputEx [] 1 reasonEx
    mVerifiedEx projOtherEx (by rfl) (by rfl) (by rfl) (by decide)

/-- The truthiness-guarded fold computing `totalProduction` equals the plain
sum of the IoT-reported totals. -/
theorem foldl_totalProduction_eq_sum (l : List SourceOutcome) (acc : Nat) :
    l.foldl totalProductionStep acc = acc + (l.map iotReportedTotal).sum := by
  induction l generalizing acc with
  | nil => simp
  | cons a t ih =>
    rw [List.foldl_cons, ih]
    cases a with
    | iotData v q d =>
      by_cases hv : v = 0 <;>
        simp [totalProductionStep, SourceOutcome.summaryTotalProduction, iotReportedTotal, hv] <;>
        omega
    | govData v =>
      simp [totalProductionStep, SourceOutcome.summaryTotalProduction, iotReportedTotal]
    | thirdPartyData b =>
      simp [totalProductionStep, SourceOutcome.summaryTotalProduction, iotReportedTotal]
    | fetchError msg =>
      simp [totalProductionStep, SourceOutcome.summaryTotalProduction, iotReportedTotal]

/-- Closed form of the aggregation on a list of per-source outcomes. -/
theorem getAggregatedProductionData_spec (outcomes : List SourceOutcome) :
    getAggregatedProductionData outcomes = Except.ok {
      totalProduction := ((outcomes.filter fun o => !o.isError).map iotReportedTotal).sum
      sourcesUsed := (outcomes.filter fun o => !o.isError).length
      dataReliability := ((outcomes.filter fun o => !o.isError).length : ℚ)
                           / (outcomes.length : ℚ) * 100 } := by
  simp only [getAggregatedProductionData]
  rw [foldl_totalProduction_eq_sum]
  simp

/-- C6 (amended).  The aggregation returns successfully with `totalValue`
equal to the sum of the `summary.totalProduction` fields of the succeeding
sources — a field only IoT results carry, so succeeding government and
third-party sources contribute nothing — and `dataReliability` equal to the
percentage `succeeding / requested * 100`, not the bare ratio. -/
theorem aggregation_sums_iot_totals (outcomes : List SourceOutcome) :
    getAggregatedProductionData outcomes = Except.ok {
      totalProduction := ((outcomes.filter fun o => !o.isError).map iotReportedTotal).sum
      sourcesUsed := (outcomes.filter fun o => !o.isError).length
      dataReliability := ((outcomes.filter fun o => !o.isError).length : ℚ)
                           / (outcomes.length : ℚ) * 100 } :=
  getAggregatedProductionData_spec outcomes

/-- Counterexample for C6 as stated: one succeeding IoT source reporting 7
and one succeeding government source reporting 5 aggregate to
`totalProduction = 7`, not the claimed sum `12` of all succeeding sources'
reported totals, and `dataReliability = 100`, not the claimed ratio
`2 / 2 = 1`. -/
theorem aggregation_drops_gov_total :
    getAggregatedProductionData outcomesMixed
      = Except.ok { totalProduction := 7, sourcesUsed := 2, dataReliability := 100 }
    ∧ (7 : Nat) ≠ 7 + 5
    ∧ (100 : ℚ) ≠ 2 / 2 := by
  refine ⟨?_, by decide, by norm_num⟩
  rw [getAggregatedProductionData_spec]
  norm_num [outcomesMixed, SourceOutcome.isError, iotReportedTotal]

/-- C4 (amended).  The aggregation never raises, whatever the mix of source
outcomes: zero succeeding sources yields a successful result with
`dataReliability = 0` and `totalProduction = 0` instead of an `Unavailable`
error; partial success (some but not all succeed) yields a reliability
strictly between 0 and 100; full success yields exactly 100. -/
theorem aggregation_partial_failure (outcomes : List SourceOutcome)
    (hne : outcomes ≠ []) :
    ∃ r, getAggregatedProductionData outcomes = Except.ok r
    ∧ ((outcomes.filter fun o => !o.isError).length = 0 →
        r.dataReliability = 0 ∧ r.totalProduction = 0)
    ∧ (0 < (outcomes.filter fun o => !o.isError).length →
        (outcomes.filter fun o => !o.isError).length < outcomes.length →
        0 < r.dataReliability ∧ r.dataReliability < 100)
    ∧ ((outcomes.filter fun o => !o.isError).length = outcomes.length →
        r.dataReliability = 100) := by
  have hn : 0 < outcomes.length := List.length_pos.mpr hne
  have hn0 : (outcomes.length : ℚ) ≠ 0 := by
    exact_mod_cast Nat.pos_iff_ne_zero.mp hn
  refine ⟨_, getAggregatedProductionData_spec outcomes, ?_, ?_, ?_⟩
  · intro hzero
    constructor
    · simp [hzero]
    · have : (outcomes.filter fun o => !o.isError) = [] := List.length_eq_zero.mp hzero
      simp [this]
  · intro hpos hlt
    constructor
    · have h1 : (0 : ℚ) < ((outcomes.filter fun o => !o.isError).length : ℚ) := by
        exact_mod_cast hpos
      have h2 : (0 : ℚ) < (outcomes.length : ℚ) := by exact_mod_cast hn
      positivity
    · have hq : (((outcomes.filter fun o => !o.isError).length : ℚ))
          < (outcomes.length : ℚ) := by exact_mod_cast hlt
      have h2 : (0 : ℚ) < (outcomes.length : ℚ) := by exact_mod_cast hn
      have hdiv : (((outcomes.filter fun o => !o.isError).length : ℚ))
          / (outcomes.length : ℚ) < 1 := (div_lt_one h2).mpr hq
      nlinarith
  · intro hall
    rw [hall]
    field_simp

/-- Counterexample for C4 as stated: with a single source that fails, zero
sources succeed, yet the call returns a successful result carrying
`dataReliability = 0` rather than failing with `Unavailable`. -/
theorem aggregation_zero_success_returns_value :
    getAggregatedProductionData outcomesZeroSuccess
      = Except.ok { totalProduction := 0, sourcesUsed := 0, dataReliability := 0 } := by
  rw [getAggregatedProductionData_spec]
  norm_num [outcomesZeroSuccess, SourceOutcome.isError]

/-- Witness for the amended C4 at a partial success: one IoT source succeeds
and one source fails. -/
theorem aggregation_partial_failure_witness :
    ∃ r, getAggregatedProductionData outcomesPartial = Except.ok r
    ∧ ((outcomesPartial.filter fun o => !o.isError).length = 0 →
        r.dataReliability = 0 ∧ r.totalProduction = 0)
    ∧ (0 < (outcomesPartial.filter fun o => !o.isError).length →
        (outcomesPartial.filter fun o => !o.isError).length < outcomesPartial.length →
        0 < r.dataReliability ∧ r.dataReliability < 100)
    ∧ ((outcomesPartial.filter fun o => !o.isError).length = outcomesPartial.length →
        r.dataReliability = 100) :=
  aggregation_partial_failure outcomesPartial (by decide)

/-- Each level of the retry recursion makes at most one more attempt than it
has budget. -/
theorem processWithRetryGo_attempts_le (cfg : RetryConfig) (op : Nat → Except String α) :
    ∀ fuel a, (processWithRetryGo cfg op fuel a).attemptsMade ≤ fuel + 1 := by
  intro fuel
  induction fuel with
  | zero =>
    intro a
    cases h : op a <;> simp [processWithRetryGo, h]
  | succ k ih =>
    intro a
    cases h : op a with
    | ok v => simp [processWithRetryGo, h]
    | error e =>
      simp [processWithRetryGo, h]
      have := ih (a + 1)
      omega

/-- The retry loop always makes at least one attempt. -/
theorem processWithRetryGo_attempts_pos (cfg : RetryConfig) (op : Nat → Except String α)
    (fuel a : Nat) : 1 ≤ (processWithRetryGo cfg op fuel a).attemptsMade := by
  cases fuel <;> cases h : op a <;> simp [processWithRetryGo, h] <;> omega

/-- The i-th backoff delay of the retry recursion started at `a` is
`min(baseDelay * 2^(a-1+i), maxDelay)`. -/
theorem processWithRetryGo_delay_formula (cfg : RetryConfig) (op : Nat → Except String α) :
    ∀ fuel a, 1 ≤ a → ∀ i, i < (processWithRetryGo cfg op fuel a).delays.length →
      (processWithRetryGo cfg op fuel a).delays.getD i 0
        = min (cfg.baseDelay * 2 ^ (a - 1 + i)) cfg.maxDelay := by
  intro fuel
  induction fuel with
  | zero =>
    intro a ha i hi
    cases h : op a <;> simp [processWithRetryGo, h] at hi
  | succ k ih =>
    intro a ha i hi
    cases h : op a with
    | ok v => simp [processWithRetryGo, h] at hi
    | error e =>
      simp [processWithRetryGo, h] at hi
      simp only [processWithRetryGo, h]
      cases i with
      | zero => rfl
      | succ j =>
        simp only [List.getD_cons_succ]
        have harith : a - 1 + (j + 1) = (a + 1) - 1 + j := by omega
        rw [harith]
        exact ih (a + 1) (by omega) j (Nat.lt_of_succ_lt_succ hi)

/-- When every attempt fails, the recursion exhausts its budget and
propagates the error of the final attempt. -/
theorem processWithRetryGo_all_fail (cfg : RetryConfig) (op : Nat → Except String α)
    (es : Nat → String) (hall : ∀ n, op n = Except.error (es n)) :
    ∀ fuel a, (processWithRetryGo cfg op fuel a).result = Except.error (es (a + fuel)) := by
  intro fuel
  induction fuel with
  | zero => intro a; simp [processWithRetryGo, hall a]
  | succ k ih =>
    intro a
    simp [processWithRetryGo, hall a]
    rw [ih (a + 1)]
    congr 2
    omega

/-- C7.  Payment execution makes at most `retryConfig.maxAttempts = 3`
attempts and terminates (the retry recursion is realized on the remaining
attempt budget, which strictly decreases); the i-th backoff delay is
`min(baseDelay * 2^i, maxDelay)`, doubling per attempt up to the cap; and
when every attempt fails the error of the final attempt is propagated rather
than retried. -/
theorem payment_retry_bounded_backoff (op : Nat → Except String GatewayResponse)
    (es : Nat → String) :
    (processWithRetry retryConfig op 1).attemptsMade ≤ retryConfig.maxAttempts
    ∧ (∀ i, i < (processWithRetry retryConfig op 1).delays.length →
        (processWithRetry retryConfig op 1).delays.getD i 0
          = min (retryConfig.baseDelay * 2 ^ i) retryConfig.maxDelay)
    ∧ ((∀ n, op n = Except.error (es n)) →
        (processWithRetry retryConfig op 1).result
          = Except.error (es retryConfig.maxAttempts)) := by
  refine ⟨?_, ?_, ?_⟩
  · have h := processWithRetryGo_attempts_le retryConfig op (retryConfig.maxAttempts - 1) 1
    simpa [processWithRetry, retryConfig] using h
  · intro i hi
    have h := processWithRetryGo_delay_formula retryConfig op (retryConfig.maxAttempts - 1) 1
      (le_refl 1) i (by simpa [processWithRetry] using hi)
    simpa [processWithRetry] using h
  · intro hall
    have h := processWithRetryGo_all_fail retryConfig op es hall (retryConfig.maxAttempts - 1) 1
    simpa [processWithRetry, retryConfig] using h

/-- Witness for C7: a permanently failing gateway is attempted exactly three
times with delays 1000 ms and 2000 ms, and the final error is propagated. -/
theorem payment_retry_bounded_backoff_witness :
    (processWithRetry retryConfig gatewayDown 1).delays = [1000, 2000]
    ∧ (processWithRetry retryConfig gatewayDown 1).result = Except.error (downMsg 3)
    ∧ (processWithRetry retryConfig gatewayDown 1).attemptsMade ≤ retryConfig.maxAttempts := by
  refine ⟨by decide, ?_, ?_⟩
  · exact (payment_retry_bounded_backoff gatewayDown downMsg).2.2 (fun n => rfl)
  · exact (payment_retry_bounded_backoff gatewayDown downMsg).1

/-- A successful `processPayment` call resolves with the payment id freshly
generated from this call's timestamp and nonce. -/
theorem processPayment_ok_paymentId (st : PayState) (p : PaymentData) (now : Nat)
    (nonce : String) (g : Nat → Except String GatewayResponse) (r : PaymentResult)
    (h : (processPayment st p now nonce g).result = Except.ok r) :
    r.paymentId = generatePaymentId p.milestoneId p.projectId now nonce := by
  by_cases hs : supportedMethods.contains p.method = true
  · simp only [processPayment, hs, if_true] at h
    cases ht : (processWithRetry retryConfig g 1).result with
    | ok gr =>
      simp only [ht] at h
      have hr := Except.ok.inj h
      rw [← hr]
    | error e => simp [ht] at h
  · simp only [processPayment, hs] at h
    simp at h

/-- A `processPayment` call on a supported method always issues at least one
gateway transfer attempt. -/
theorem processPayment_attempts_pos (st : PayState) (p : PaymentData) (now : Nat)
    (nonce : String) (g : Nat → Except String GatewayResponse)
    (hs : supportedMethods.contains p.method = true) :
    1 ≤ (processPayment st p now nonce g).transfersAttempted := by
  simp only [processPayment, hs, if_true]
  cases ht : (processWithRetry retryConfig g 1).result <;>
    simp only [ht] <;>
    simpa [processWithRetry] using
      processWithRetryGo_attempts_pos retryConfig g (retryConfig.maxAttempts - 1) 1

/-- C1 (amended).  `processPayment` is not idempotent on
`(projectId, milestoneId)`: every call generates a fresh payment id embedding
the call's timestamp and random nonce, so two successful calls for the same
pair at different timestamps return records with different payment ids, and
the second call invokes the gateway again (at least one transfer attempt)
instead of returning the stored record. -/
theorem process_payment_not_idempotent (st1 st2 : PayState) (p : PaymentData)
    (g1 g2 : Nat → Except String GatewayResponse) (now1 now2 : Nat) (n1 n2 : String)
    (r1 r2 : PaymentResult)
    (hne : now1 ≠ now2)
    (hsup : supportedMethods.contains p.method = true)
    (h1 : (processPayment st1 p now1 n1 g1).result = Except.ok r1)
    (h2 : (processPayment st2 p now2 n2 g2).result = Except.ok r2) :
    r1.paymentId ≠ r2.paymentId
    ∧ 1 ≤ (processPayment st2 p now2 n2 g2).transfersAttempted := by
  constructor
  · rw [processPayment_ok_paymentId st1 p now1 n1 g1 r1 h1,
        processPayment_ok_paymentId st2 p now2 n2 g2 r2 h2]
    intro hc
    exact hne (congrArg PaymentId.issuedAt hc)
  · exact processPayment_attempts_pos st2 p now2 n2 g2 hsup

/-- Witness for the amended C1: two concrete back-to-back calls for the same
`(projectId, milestoneId) = (3, 7)` pair. -/
theorem process_payment_not_idempotent_witness :
    payResFirst.paymentId ≠ payResSecond.paymentId
    ∧ 1 ≤ (processPayment payStateAfterFirst paymentDataEx 1001 "bbb" gatewayOk).transfersAttempted :=
  process_payment_not_idempotent emptyPayState payStateAfterFirst paymentDataEx
    gatewayOk gatewayOk 1000 1001 "aaa" "bbb" payResFirst payResSecond
    (by decide) (by decide) (by decide) (by decide)

/-- Counterexample for C1 as stated: after a first successful call for
`(projectId, milestoneId) = (3, 7)`, the second call for the same pair
succeeds with a different payment id and issues one more gateway transfer,
instead of returning the first record without a transfer. -/
theorem process_payment_second_call_transfers :
    (processPayment emptyPayState paymentDataEx 1000 "aaa" gatewayOk).result.isOk = true
    ∧ ((processPayment emptyPayState paymentDataEx 1000 "aaa" gatewayOk).result.map
        (fun r => r.paymentId))
      ≠ ((processPayment payStateAfterFirst paymentDataEx 1001 "bbb" gatewayOk).result.map
        (fun r => r.paymentId))
    ∧ (processPayment payStateAfterFirst paymentDataEx 1001 "bbb" gatewayOk).transfersAttempted
        = 1 := by
  refine ⟨by decide, by decide, by decide⟩

/-- The banking request loop makes at most one more attempt than it has
budget. -/
theorem makeRequestGo_attempts_le (resp : Nat → HttpOutcome) :
    ∀ fuel a, (makeRequestGo resp fuel a).attemptsMade ≤ fuel + 1 := by
  intro fuel
  induction fuel with
  | zero =>
    intro a
    cases h : resp a <;> simp [makeRequestGo, h]
  | succ k ih =>
    intro a
    cases h : resp a with
    | success b => simp [makeRequestGo, h]
    | httpError s =>
      by_cases h4 : 400 ≤ s ∧ s < 500
      · simp [makeRequestGo, h, h4]
      · simp [makeRequestGo, h, h4]
        have := ih (a + 1)
        omega
    | networkError m =>
      simp [makeRequestGo, h]
      have := ih (a + 1)
      omega

/-- The i-th backoff delay of the banking loop started at attempt `a` is
`2^(a+i) * 1000` milliseconds. -/
theorem makeRequestGo_delay_formula (resp : Nat → HttpOutcome) :
    ∀ fuel a, ∀ i, i < (makeRequestGo resp fuel a).delays.length →
      (makeRequestGo resp fuel a).delays.getD i 0 = 2 ^ (a + i) * 1000 := by
  intro fuel
  induction fuel with
  | zero =>
    intro a i hi
    cases h : resp a <;> simp [makeRequestGo, h] at hi
  | succ k ih =>
    intro a i hi
    cases h : resp a with
    | success b => simp [makeRequestGo, h] at hi
    | httpError s =>
      by_cases h4 : 400 ≤ s ∧ s < 500
      · simp [makeRequestGo, h, h4] at hi
      · simp [makeRequestGo, h, h4] at hi
        simp only [makeRequestGo, h]
        rw [if_neg h4]
        cases i with
        | zero => rfl
        | succ j =>
          simp only [List.getD_cons_succ]
          have harith : a + (j + 1) = (a + 1) + j := by omega
          rw [harith]
          exact ih (a + 1) j (Nat.lt_of_succ_lt_succ hi)
    | networkError m =>
      simp [makeRequestGo, h] at hi
      simp only [makeRequestGo, h]
      cases i with
      | zero => rfl
      | succ j =>
        simp only [List.getD_cons_succ]
        have harith : a + (j + 1) = (a + 1) + j := by omega
        rw [harith]
        exact ih (a + 1) j (Nat.lt_of_succ_lt_succ hi)

/-- C9.  `BankingService._makeRequest` never retries a permanent client
error: an attempt failing with an HTTP status in `[400, 500)` stops the loop
at once with that error and no further attempt, at whatever point of the
loop it happens; the loop as a whole makes at most 3 attempts, and the delay
slept after the a-th failed (retryable) attempt is `2^a` seconds. -/
theorem banking_no_retry_on_client_error (resp : Nat → HttpOutcome) (s a fuel : Nat)
    (h4 : 400 ≤ s) (h5 : s < 500) (hr : resp a = HttpOutcome.httpError s) :
    makeRequestGo resp fuel a
      = { result := Except.error (HttpOutcome.httpError s), attemptsMade := 1, delays := [] }
    ∧ (bankMakeRequest resp).attemptsMade ≤ bankRetryAttempts
    ∧ (∀ i, i < (bankMakeRequest resp).delays.length →
        (bankMakeRequest resp).delays.getD i 0 = 2 ^ (1 + i) * 1000) := by
  refine ⟨?_, ?_, ?_⟩
  · cases fuel <;> simp [makeRequestGo, hr, h4, h5]
  · have h := makeRequestGo_attempts_le resp (bankRetryAttempts - 1) 1
    simpa [bankMakeRequest, bankRetryAttempts] using h
  · intro i hi
    have h := makeRequestGo_delay_formula resp (bankRetryAttempts - 1) 1 i
      (by simpa [bankMakeRequest] using hi)
    simpa [bankMakeRequest] using h

/-- Witness for C9: a gateway answering 404 stops the loop on the first
attempt with that error. -/
theorem banking_no_retry_on_client_error_witness :
    makeRequestGo respClientError 2 1
      = { result := Except.error (HttpOutcome.httpError 404), attemptsMade := 1, delays := [] }
    ∧ (bankMakeRequest respClientError).attemptsMade ≤ bankRetryAttempts :=
  ⟨(banking_no_retry_on_client_error respClientError 404 1 2 (by decide) (by decide) rfl).1,
   (banking_no_retry_on_client_error respClientError 404 1 2 (by decide) (by decide) rfl).2.1⟩

end SubsidyCore
